import Mathlib

/-!
# Verification of `src/emberstats/scripts/social_post.js`

A shallow embedding of the Google-Apps-Script social-post dispatcher.
Spreadsheet cell values (as returned by `getDataRange().getValues()`) are
modelled by the inductive type `Cell`; JavaScript truthiness, loose string
equality and `new Date(...)` are modelled explicitly.  Timestamps are
milliseconds since the Unix epoch, as `Int`; the script runs with a UTC
time zone, so `setHours(0,0,0,0)` floors a timestamp to a multiple of
86400000 ms.
-/

namespace SocialPost

/-- A spreadsheet cell value as seen from Apps Script: a string, a number,
a boolean, a date (timestamp in ms), or JavaScript `undefined` (reading
past the end of a row). -/
inductive Cell where
  | str (s : String)
  | num (n : Int)
  | boolean (b : Bool)
  | date (t : Int)
  | undef
  deriving DecidableEq, Repr

/-- JavaScript truthiness of a cell value: the empty string, the number 0,
`false` and `undefined` are falsy; every `Date` object is truthy. -/
def jsTruthy : Cell → Bool
  | .str s => s ≠ ""
  | .num n => n ≠ 0
  | .boolean b => b
  | .date _ => true
  | .undef => false

/-- JavaScript loose equality `cell == "Ready"` as used on the status cell:
a string compares by content; a number or boolean would be compared with
`Number("Ready") = NaN` and so is never equal; a `Date` converts to a date
string, never the bare word; `undefined == "Ready"` is false. -/
def jsEqReady : Cell → Bool
  | .str s => s = "Ready"
  | _ => false

/-- Number of days in a month of the (proleptic) Gregorian calendar. -/
def daysInMonth (y m : Nat) : Nat :=
  if m = 2 then
    if y % 4 = 0 ∧ (y % 100 ≠ 0 ∨ y % 400 = 0) then 29 else 28
  else if m = 4 ∨ m = 6 ∨ m = 9 ∨ m = 11 then 30
  else 31

/-- Days from 1970-01-01 to the civil date `y-m-d` (valid for `y ≥ 1`,
`1 ≤ m ≤ 12`), by the standard era decomposition of the Gregorian
calendar. -/
def daysFromCivil (y m d : Nat) : Int :=
  let y2 := if m ≤ 2 then y - 1 else y
  let era := y2 / 400
  let yoe := y2 % 400
  let mp := (m + 9) % 12
  let doy := (153 * mp + 2) / 5 + (d - 1)
  let doe := yoe * 365 + yoe / 4 - yoe / 100 + doy
  (era * 146097 + doe : Int) - 719468

/-- Decimal value of a digit character. -/
def digitVal (c : Char) : Nat := c.toNat - 48

/-- Parse a strict ISO `YYYY-MM-DD` date string to a timestamp in ms at UTC
midnight, as JavaScript `new Date(string)` does on such input; any other
string is modelled as the Invalid Date (`none`).  (`new Date` also accepts
other formats; only the ISO date form occurs in this spreadsheet.) -/
def isoParse (s : String) : Option Int :=
  match s.data with
  | [y1, y2, y3, y4, h1, m1, m2, h2, d1, d2] =>
    if y1.isDigit ∧ y2.isDigit ∧ y3.isDigit ∧ y4.isDigit ∧ h1 = '-' ∧
        m1.isDigit ∧ m2.isDigit ∧ h2 = '-' ∧ d1.isDigit ∧ d2.isDigit then
      let y := 1000 * digitVal y1 + 100 * digitVal y2 + 10 * digitVal y3 + digitVal y4
      let m := 10 * digitVal m1 + digitVal m2
      let d := 10 * digitVal d1 + digitVal d2
      if 1 ≤ m ∧ m ≤ 12 ∧ 1 ≤ d ∧ d ≤ daysInMonth y m ∧ 1 ≤ y then
        some (daysFromCivil y m d * 86400000)
      else none
    else none
  | _ => none

/-- JavaScript `new Date(cell)`: a `Date` copies its timestamp, a number is
taken as a timestamp in ms, a string is parsed (see `isoParse`), `true`/
`false` coerce to 1/0 ms, and `undefined` yields an Invalid Date. -/
def jsNewDate : Cell → Option Int
  | .str s => isoParse s
  | .num n => some n
  | .boolean b => some (if b then 1 else 0)
  | .date t => some t
  | .undef => none

/-- `setHours(0,0,0,0)` at UTC: floor a timestamp to midnight. -/
def normMidnight (t : Int) : Int := t - t % 86400000

/-- `rowDate <= today` where `rowDate` may be an Invalid Date: any
comparison against NaN is false. -/
def jsDateLe (o : Option Int) (t : Int) : Bool :=
  match o with
  | some x => x ≤ t
  | none => false

/-- `row[c]` on the 2-D value array: JavaScript indexing out of range gives
`undefined`, and a missing row behaves as a row of `undefined`s for the
cells the script reads. -/
def getCell (data : List (List Cell)) (i c : Nat) : Cell :=
  ((data.getD i []).getD c Cell.undef)

/-- The predicate `shouldPost(data, row)` of the script (lines 66-72):
`content && status == "Ready" && rowDate <= today`, where `content` is
column I (index 8), `status` column A (index 0), `rowDate` is column B
(index 1) put through `new Date` and normalized to midnight, and `today`
is the run's current time `now` normalized to midnight. -/
def shouldPost (now : Int) (data : List (List Cell)) (row : Nat) : Bool :=
  let content := getCell data row 8
  let status := getCell data row 0
  let rowDate := (jsNewDate (getCell data row 1)).map normMidnight
  jsTruthy content && jsEqReady status && jsDateLe rowDate (normMidnight now)

/-- The fixed, ordered tab list `SHEET_NAMES` (lines 4-7). -/
def SHEET_NAMES : List String := ["Peak Share", "Peak Generation"]

/-- The session obtained from `createSession`: `accessJwt` and `did`
(lines 23-25). -/
structure Session where
  accessJwt : String
  did : String
  deriving DecidableEq, Repr

/-- The outbound payload of `createRecord` (lines 40-48): repo = the
session's `did`, a fixed collection and record type, the row's content
cell as text, and the creation timestamp. -/
structure PostRecord where
  repo : String
  collection : String
  recordType : String
  text : Cell
  createdAt : Int
  deriving DecidableEq, Repr

/-- Build the `postRecord` of lines 40-48. -/
def mkRecord (did : String) (content : Cell) (createdAt : Int) : PostRecord :=
  ⟨did, "app.bsky.feed.post", "app.bsky.feed.post", content, createdAt⟩

/-- What the outside world does on one qualifying row's try block: the
`createRecord` fetch succeeds and so does the status write (`ok`); the
fetch throws (`fetchThrows`, so no write is attempted); or the fetch
succeeds and the `setValue` of "Posted" throws (`setValueThrows`).  The
carried string is the thrown error's `toString()`. -/
inductive RowOutcome where
  | ok
  | fetchThrows (e : String)
  | setValueThrows (e : String)
  deriving DecidableEq, Repr

/-- Whether the try block reaches past the `createRecord` fetch, i.e. the
post is submitted remotely. -/
def RowOutcome.posted : RowOutcome → Bool
  | .fetchThrows _ => false
  | _ => true

/-- Whether the try block completes, i.e. the status cell write commits. -/
def RowOutcome.wrote : RowOutcome → Bool
  | .ok => true
  | _ => false

/-- An outcome oracle: the world's behaviour on the row at index `i` of the
tab named `n`, queried as `outs n i`. -/
def Outcomes : Type := String → Nat → RowOutcome

/-- The spreadsheet: tab name to 2-D value grid. -/
def Spreadsheet : Type := String → List (List Cell)

/-- Overwrite `row[c]` in place (in range; `setValue` always targets an
existing cell of the grid that was just read). -/
def setNth {α : Type} : List α → Nat → α → List α
  | [], _, _ => []
  | _ :: l, 0, v => v :: l
  | a :: l, n + 1, v => a :: setNth l n v

/-- Overwrite cell `(i, c)` (0-based) of a grid. -/
def updateCell (d : List (List Cell)) (i c : Nat) (v : Cell) : List (List Cell) :=
  setNth d i (setNth (d.getD i []) c v)

/-- Write cell `(i, c)` of the tab named `name`. -/
def writeSS (f : Spreadsheet) (name : String) (i c : Nat) (v : Cell) : Spreadsheet :=
  fun n => if n = name then updateCell (f n) i c v else f n

/-- The observable state threaded through a run: the spreadsheet, the post
records submitted so far (in order), and the log lines so far. -/
structure RunState where
  ss : Spreadsheet
  posts : List PostRecord
  log : List String

/-- The body of the row loop (lines 35-61) for index `i` of the snapshot
`data` read from tab `name`: if `shouldPost`, log "Posting row", then try
the fetch and the status write, appending the post on a successful fetch,
writing "Posted" to cell `(row_number, 1)` on full success, and logging
the caught error otherwise. -/
def rowStep (now : Int) (did : String) (createdAt : Int) (outs : Outcomes)
    (name : String) (data : List (List Cell)) (st : RunState) (i : Nat) : RunState :=
  if shouldPost now data i then
    let content := getCell data i 8
    let rn := i + 1
    let log1 := st.log ++ ["Posting row " ++ toString rn]
    match outs name i with
    | .ok =>
      { ss := writeSS st.ss name i 0 (Cell.str "Posted"),
        posts := st.posts ++ [mkRecord did content createdAt],
        log := log1 }
    | .fetchThrows e =>
      { st with log := log1 ++ ["Error posting row " ++ toString rn ++ ": " ++ e] }
    | .setValueThrows e =>
      { ss := st.ss,
        posts := st.posts ++ [mkRecord did content createdAt],
        log := log1 ++ ["Error posting row " ++ toString rn ++ ": " ++ e] }
  else st

/-- The data-row indices of a grid: `i = 1 .. data.length - 1`, skipping
the header row 0 (line 34: `for (let i = 1; i < data.length; i++)`). -/
def rowIdxs (data : List (List Cell)) : List Nat :=
  List.range' 1 (data.length - 1)

/-- Process one tab (lines 29-62): log the search line, read the full
value range once, and run the row loop top to bottom on that snapshot. -/
def processSheet (now : Int) (did : String) (createdAt : Int) (outs : Outcomes)
    (st : RunState) (name : String) : RunState :=
  let st1 : RunState := { st with log := st.log ++ ["Searching for posts in " ++ name] }
  let data := st1.ss name
  (rowIdxs data).foldl (rowStep now did createdAt outs name data) st1

/-- The whole run after a successful authentication: fold `processSheet`
over `SHEET_NAMES` in order, starting from the given spreadsheet with no
posts and an empty log. -/
def runOk (sess : Session) (now : Int) (createdAt : Int) (outs : Outcomes)
    (ss : Spreadsheet) : RunState :=
  SHEET_NAMES.foldl (processSheet now sess.did createdAt outs) ⟨ss, [], []⟩

/-- `postToBluesky()` (lines 13-64): authenticate first — a failed or
unparsable `createSession` response throws with no catch, aborting the
whole run before any sheet is read — then loop over the tabs. -/
def postToBluesky (auth : Except String Session) (now : Int) (createdAt : Int)
    (outs : Outcomes) (ss : Spreadsheet) : Except String RunState :=
  match auth with
  | .error e => .error e
  | .ok sess => .ok (runOk sess now createdAt outs ss)

/-! ## Spec-side definitions

These follow the wording of the specification (not the code) and are used
to compare the two. -/

/-- Spec wording: "the content cell is non-empty".  A cell is non-empty
when it holds any value at all: a non-empty string, any number, any
boolean, or a date. -/
def cellNonEmpty : Cell → Bool
  | .str s => s ≠ ""
  | .undef => false
  | _ => true

/-- Spec wording: "empty or consists only of blank (whitespace)
characters". -/
def isBlankCell : Cell → Bool
  | .str s => s.data.all Char.isWhitespace
  | .undef => true
  | _ => false

/-- The qualification predicate as the spec words it: content cell
non-empty, status cell equals exactly "Ready", and the scheduled date
normalized to midnight is at most the current date normalized to
midnight. -/
def specQualifies (now : Int) (data : List (List Cell)) (row : Nat) : Bool :=
  cellNonEmpty (getCell data row 8) &&
  decide (getCell data row 0 = Cell.str "Ready") &&
  jsDateLe ((jsNewDate (getCell data row 1)).map normMidnight) (normMidnight now)

/-- The log lines the spec's control flow predicts for one whole run (with
every outcome successful): per tab in order, the search line followed by
one "Posting row" line per qualifying data row, top to bottom. -/
def specRunLog (now : Int) (ss : Spreadsheet) : List String :=
  SHEET_NAMES.flatMap fun name =>
    ("Searching for posts in " ++ name) ::
      ((rowIdxs (ss name)).filter (shouldPost now (ss name))).map
        (fun i => "Posting row " ++ toString (i + 1))

/-- The post records the spec predicts for one whole run (with every
outcome successful): per tab in order, one record per qualifying data row,
top to bottom, carrying that row's content cell. -/
def specRunPosts (now : Int) (did : String) (createdAt : Int) (ss : Spreadsheet) :
    List PostRecord :=
  SHEET_NAMES.flatMap fun name =>
    ((rowIdxs (ss name)).filter (shouldPost now (ss name))).map
      (fun i => mkRecord did (getCell (ss name) i 8) createdAt)

/-- Every try block in the run succeeds (the "first run completed without
error" hypothesis). -/
def allOk (outs : Outcomes) : Prop := ∀ n i, outs n i = RowOutcome.ok

/-! ## Characterization of the row loop

The three observable components of the loop over one tab's rows, as
explicit list functions of the index list, for an arbitrary outcome
oracle. -/

/-- The post records appended by the row loop: one per index that
qualifies and whose fetch does not throw. -/
def rowPosts (now : Int) (did : String) (createdAt : Int) (outs : Outcomes)
    (name : String) (data : List (List Cell)) (is : List Nat) : List PostRecord :=
  (is.filter fun i => shouldPost now data i && (outs name i).posted).map
    (fun i => mkRecord did (getCell data i 8) createdAt)

/-- The log lines appended by the row loop: for each qualifying index the
"Posting row" line, followed by the caught error's line when the try block
throws. -/
def rowLog (now : Int) (outs : Outcomes) (name : String)
    (data : List (List Cell)) (is : List Nat) : List String :=
  is.flatMap fun i =>
    if shouldPost now data i then
      ("Posting row " ++ toString (i + 1)) ::
        (match outs name i with
         | .ok => []
         | .fetchThrows e => ["Error posting row " ++ toString (i + 1) ++ ": " ++ e]
         | .setValueThrows e => ["Error posting row " ++ toString (i + 1) ++ ": " ++ e])
    else []

/-- The grid writes performed by the row loop on the processed tab:
"Posted" into column 0 of each index that qualifies and whose whole try
block succeeds. -/
def writeFold (now : Int) (outs : Outcomes) (name : String)
    (data : List (List Cell)) (d0 : List (List Cell)) (is : List Nat) :
    List (List Cell) :=
  is.foldl
    (fun d i =>
      if shouldPost now data i && (outs name i).wrote then
        updateCell d i 0 (Cell.str "Posted")
      else d)
    d0

/-- One tab's grid after its row loop ran over it. -/
def sheetAfter (now : Int) (outs : Outcomes) (name : String)
    (d : List (List Cell)) : List (List Cell) :=
  writeFold now outs name d d (rowIdxs d)

/-! ## Basic lemmas on cells and grid updates -/

theorem length_setNth {α : Type} (l : List α) (n : Nat) (v : α) :
    (setNth l n v).length = l.length := by
  induction l generalizing n with
  | nil => rfl
  | cons a l ih =>
    cases n with
    | zero => rfl
    | succ m => simpa [setNth] using ih m

theorem setNth_of_length_le {α : Type} (l : List α) (n : Nat) (v : α)
    (h : l.length ≤ n) : setNth l n v = l := by
  induction l generalizing n with
  | nil => rfl
  | cons a l ih =>
    cases n with
    | zero => simp at h
    | succ m =>
      simp only [List.length_cons, Nat.succ_le_succ_iff] at h
      simpa [setNth] using ih m h

theorem getD_setNth_ne {α : Type} (l : List α) (n m : Nat) (v dflt : α)
    (h : n ≠ m) : (setNth l n v).getD m dflt = l.getD m dflt := by
  induction l generalizing n m with
  | nil => rfl
  | cons a l ih =>
    cases n with
    | zero =>
      cases m with
      | zero => exact absurd rfl h
      | succ k => rfl
    | succ n1 =>
      cases m with
      | zero => rfl
      | succ k =>
        simpa [setNth, List.getD_cons_succ] using ih n1 k (fun he => h (by omega))

theorem getD_setNth_eq {α : Type} (l : List α) (n : Nat) (v dflt : α)
    (h : n < l.length) : (setNth l n v).getD n dflt = v := by
  induction l generalizing n with
  | nil => simp at h
  | cons a l ih =>
    cases n with
    | zero => rfl
    | succ m =>
      simp only [List.length_cons, Nat.succ_lt_succ_iff] at h
      simpa [setNth, List.getD_cons_succ] using ih m h

theorem length_updateCell (d : List (List Cell)) (i c : Nat) (v : Cell) :
    (updateCell d i c v).length = d.length :=
  length_setNth d i _

theorem rowlen_updateCell (d : List (List Cell)) (i c : Nat) (v : Cell) (j : Nat) :
    ((updateCell d i c v).getD j []).length = (d.getD j []).length := by
  by_cases hij : i = j
  · subst hij
    by_cases hi : i < d.length
    · unfold updateCell
      rw [getD_setNth_eq d i _ _ hi, length_setNth]
    · unfold updateCell
      rw [setNth_of_length_le d i _ (Nat.le_of_not_lt hi)]
  · unfold updateCell
    rw [getD_setNth_ne d i j _ _ hij]

theorem getCell_updateCell_ne_row (d : List (List Cell)) (i c : Nat) (v : Cell)
    (j c' : Nat) (h : i ≠ j) :
    getCell (updateCell d i c v) j c' = getCell d j c' := by
  unfold getCell updateCell
  rw [getD_setNth_ne d i j _ _ h]

theorem getCell_updateCell_ne_col (d : List (List Cell)) (i c : Nat) (v : Cell)
    (j c' : Nat) (h : c ≠ c') :
    getCell (updateCell d i c v) j c' = getCell d j c' := by
  by_cases hij : i = j
  · subst hij
    by_cases hi : i < d.length
    · unfold getCell updateCell
      rw [getD_setNth_eq d i _ _ hi, getD_setNth_ne _ c c' _ _ h]
    · unfold updateCell
      rw [setNth_of_length_le d i _ (Nat.le_of_not_lt hi)]
  · exact getCell_updateCell_ne_row d i c v j c' hij

theorem getCell_updateCell_eq (d : List (List Cell)) (i c : Nat) (v : Cell)
    (hi : i < d.length) (hc : c < (d.getD i []).length) :
    getCell (updateCell d i c v) i c = v := by
  unfold getCell updateCell
  rw [getD_setNth_eq d i _ _ hi, getD_setNth_eq _ c _ _ hc]

theorem getCell_updateCell_self_or (d : List (List Cell)) (i c : Nat) (v : Cell) :
    getCell (updateCell d i c v) i c = v ∨
      getCell (updateCell d i c v) i c = getCell d i c := by
  by_cases hi : i < d.length
  · by_cases hc : c < (d.getD i []).length
    · exact Or.inl (getCell_updateCell_eq d i c v hi hc)
    · right
      unfold getCell updateCell
      rw [setNth_of_length_le _ c v (Nat.le_of_not_lt hc),
        getD_setNth_eq d i _ _ hi]
  · right
    unfold updateCell
    rw [setNth_of_length_le d i _ (Nat.le_of_not_lt hi)]

/-! ## Lemmas about the predicate -/

theorem jsEqReady_eq_true (c : Cell) :
    jsEqReady c = true ↔ c = Cell.str "Ready" := by
  cases c <;> simp [jsEqReady]

theorem shouldPost_iff (now : Int) (d : List (List Cell)) (i : Nat) :
    shouldPost now d i = true ↔
      jsTruthy (getCell d i 8) = true ∧ jsEqReady (getCell d i 0) = true ∧
        jsDateLe ((jsNewDate (getCell d i 1)).map normMidnight)
          (normMidnight now) = true := by
  simp [shouldPost, Bool.and_eq_true, and_assoc]

theorem rowlen_pos_of_ready (d : List (List Cell)) (i : Nat)
    (h : jsEqReady (getCell d i 0) = true) : 0 < (d.getD i []).length := by
  cases hrow : d.getD i [] with
  | nil =>
    unfold getCell at h
    rw [hrow] at h
    simp [jsEqReady] at h
  | cons a l => simp [hrow]

theorem shouldPost_congr (now : Int) (d d' : List (List Cell)) (i : Nat)
    (h0 : getCell d' i 0 = getCell d i 0) (h1 : getCell d' i 1 = getCell d i 1)
    (h8 : getCell d' i 8 = getCell d i 8) :
    shouldPost now d' i = shouldPost now d i := by
  simp [shouldPost, h0, h1, h8]

theorem mem_rowIdxs (d : List (List Cell)) (i : Nat) :
    i ∈ rowIdxs d ↔ 1 ≤ i ∧ i < d.length := by
  unfold rowIdxs
  rw [List.mem_range'_1]
  omega

/-! ## Characterization of the row loop and of a whole run -/

theorem writeFold_nil (now : Int) (outs : Outcomes) (name : String)
    (data d0 : List (List Cell)) : writeFold now outs name data d0 [] = d0 := rfl

theorem writeFold_cons (now : Int) (outs : Outcomes) (name : String)
    (data d0 : List (List Cell)) (i : Nat) (is : List Nat) :
    writeFold now outs name data d0 (i :: is) =
      writeFold now outs name data
        (if shouldPost now data i && (outs name i).wrote then
          updateCell d0 i 0 (Cell.str "Posted")
        else d0) is := rfl

theorem foldl_rowStep_posts (now : Int) (did : String) (createdAt : Int)
    (outs : Outcomes) (name : String) (data : List (List Cell)) :
    ∀ (is : List Nat) (st : RunState),
      (is.foldl (rowStep now did createdAt outs name data) st).posts
        = st.posts ++ rowPosts now did createdAt outs name data is := by
  intro is
  induction is with
  | nil => intro st; simp [rowPosts]
  | cons i is ih =>
    intro st
    rw [List.foldl_cons, ih]
    unfold rowPosts
    rw [List.filter_cons]
    by_cases h : shouldPost now data i
    · cases houts : outs name i with
      | ok => simp [rowStep, h, houts, RowOutcome.posted, rowPosts]
      | fetchThrows e => simp [rowStep, h, houts, RowOutcome.posted, rowPosts]
      | setValueThrows e => simp [rowStep, h, houts, RowOutcome.posted, rowPosts]
    · simp [rowStep, h, rowPosts]

theorem foldl_rowStep_log (now : Int) (did : String) (createdAt : Int)
    (outs : Outcomes) (name : String) (data : List (List Cell)) :
    ∀ (is : List Nat) (st : RunState),
      (is.foldl (rowStep now did createdAt outs name data) st).log
        = st.log ++ rowLog now outs name data is := by
  intro is
  induction is with
  | nil => intro st; simp [rowLog]
  | cons i is ih =>
    intro st
    rw [List.foldl_cons, ih]
    unfold rowLog
    rw [List.flatMap_cons]
    by_cases h : shouldPost now data i
    · cases houts : outs name i with
      | ok => simp [rowStep, h, houts, rowLog]
      | fetchThrows e => simp [rowStep, h, houts, rowLog]
      | setValueThrows e => simp [rowStep, h, houts, rowLog]
    · simp [rowStep, h, rowLog]

theorem foldl_rowStep_ss (now : Int) (did : String) (createdAt : Int)
    (outs : Outcomes) (name : String) (data : List (List Cell)) :
    ∀ (is : List Nat) (st : RunState) (n : String),
      (is.foldl (rowStep now did createdAt outs name data) st).ss n
        = if n = name then writeFold now outs name data (st.ss name) is
          else st.ss n := by
  intro is
  induction is with
  | nil => intro st n; by_cases h : n = name <;> simp [h, writeFold_nil]
  | cons i is ih =>
    intro st n
    rw [List.foldl_cons, ih, writeFold_cons]
    by_cases h : shouldPost now data i
    · cases houts : outs name i with
      | ok =>
        by_cases hn : n = name <;>
          simp [rowStep, h, houts, RowOutcome.wrote, writeSS, hn]
      | fetchThrows e =>
        by_cases hn : n = name <;>
          simp [rowStep, h, houts, RowOutcome.wrote, hn]
      | setValueThrows e =>
        by_cases hn : n = name <;>
          simp [rowStep, h, houts, RowOutcome.wrote, hn]
    · by_cases hn : n = name <;> simp [rowStep, h, hn]

theorem processSheet_posts (now : Int) (did : String) (createdAt : Int)
    (outs : Outcomes) (st : RunState) (name : String) :
    (processSheet now did createdAt outs st name).posts
      = st.posts ++
          rowPosts now did createdAt outs name (st.ss name) (rowIdxs (st.ss name)) := by
  unfold processSheet
  rw [foldl_rowStep_posts]

theorem processSheet_log (now : Int) (did : String) (createdAt : Int)
    (outs : Outcomes) (st : RunState) (name : String) :
    (processSheet now did createdAt outs st name).log
      = st.log ++ ("Searching for posts in " ++ name) ::
          rowLog now outs name (st.ss name) (rowIdxs (st.ss name)) := by
  unfold processSheet
  rw [foldl_rowStep_log]
  simp

theorem processSheet_ss (now : Int) (did : String) (createdAt : Int)
    (outs : Outcomes) (st : RunState) (name n : String) :
    (processSheet now did createdAt outs st name).ss n
      = if n = name then sheetAfter now outs name (st.ss name) else st.ss n := by
  unfold processSheet sheetAfter
  rw [foldl_rowStep_ss]

theorem runOk_posts (sess : Session) (now createdAt : Int) (outs : Outcomes)
    (ss : Spreadsheet) :
    (runOk sess now createdAt outs ss).posts
      = rowPosts now sess.did createdAt outs "Peak Share" (ss "Peak Share")
          (rowIdxs (ss "Peak Share")) ++
        rowPosts now sess.did createdAt outs "Peak Generation" (ss "Peak Generation")
          (rowIdxs (ss "Peak Generation")) := by
  show (processSheet now sess.did createdAt outs
    (processSheet now sess.did createdAt outs ⟨ss, [], []⟩ "Peak Share")
    "Peak Generation").posts = _
  rw [processSheet_posts, processSheet_posts, processSheet_ss]
  simp

theorem runOk_log (sess : Session) (now createdAt : Int) (outs : Outcomes)
    (ss : Spreadsheet) :
    (runOk sess now createdAt outs ss).log
      = ("Searching for posts in Peak Share" ::
          rowLog now outs "Peak Share" (ss "Peak Share")
            (rowIdxs (ss "Peak Share"))) ++
        ("Searching for posts in Peak Generation" ::
          rowLog now outs "Peak Generation" (ss "Peak Generation")
            (rowIdxs (ss "Peak Generation"))) := by
  show (processSheet now sess.did createdAt outs
    (processSheet now sess.did createdAt outs ⟨ss, [], []⟩ "Peak Share")
    "Peak Generation").log = _
  rw [processSheet_log, processSheet_log, processSheet_ss]
  simp

theorem runOk_ss (sess : Session) (now createdAt : Int) (outs : Outcomes)
    (ss : Spreadsheet) (n : String) :
    (runOk sess now createdAt outs ss).ss n
      = if n = "Peak Share" then
          sheetAfter now outs "Peak Share" (ss "Peak Share")
        else if n = "Peak Generation" then
          sheetAfter now outs "Peak Generation" (ss "Peak Generation")
        else ss n := by
  show (processSheet now sess.did createdAt outs
    (processSheet now sess.did createdAt outs ⟨ss, [], []⟩ "Peak Share")
    "Peak Generation").ss n = _
  rw [processSheet_ss, processSheet_ss, processSheet_ss]
  by_cases h1 : n = "Peak Share" <;> by_cases h2 : n = "Peak Generation" <;>
    simp [h1, h2]

/-! ## What the row loop's writes do and do not touch -/

theorem length_writeFold (now : Int) (outs : Outcomes) (name : String)
    (data : List (List Cell)) :
    ∀ (is : List Nat) (d0 : List (List Cell)),
      (writeFold now outs name data d0 is).length = d0.length := by
  intro is
  induction is with
  | nil => intro d0; rfl
  | cons i is ih =>
    intro d0
    rw [writeFold_cons, ih]
    by_cases h : shouldPost now data i && (outs name i).wrote
    · simp [h, length_updateCell]
    · simp [h]

theorem rowlen_writeFold (now : Int) (outs : Outcomes) (name : String)
    (data : List (List Cell)) :
    ∀ (is : List Nat) (d0 : List (List Cell)) (j : Nat),
      ((writeFold now outs name data d0 is).getD j []).length
        = (d0.getD j []).length := by
  intro is
  induction is with
  | nil => intro d0 j; rfl
  | cons i is ih =>
    intro d0 j
    rw [writeFold_cons, ih]
    by_cases h : shouldPost now data i && (outs name i).wrote
    · rw [if_pos h]
      exact rowlen_updateCell d0 i 0 _ j
    · rw [if_neg h]

/-- A row whose index never qualifies-with-successful-write is untouched by
the loop's writes, in every column. -/
theorem getCell_writeFold_not_written (now : Int) (outs : Outcomes) (name : String)
    (data : List (List Cell)) (j c : Nat)
    (h : ¬(shouldPost now data j = true ∧ (outs name j).wrote = true)) :
    ∀ (is : List Nat) (d0 : List (List Cell)),
      getCell (writeFold now outs name data d0 is) j c = getCell d0 j c := by
  intro is
  induction is with
  | nil => intro d0; rfl
  | cons i is ih =>
    intro d0
    rw [writeFold_cons, ih]
    by_cases hw : shouldPost now data i && (outs name i).wrote
    · have hij : i ≠ j := by
        intro he
        subst he
        exact h (by simpa [Bool.and_eq_true] using hw)
      simp [hw, getCell_updateCell_ne_row _ _ _ _ _ _ hij]
    · simp [hw]

/-- Writes never move a status cell away from "Posted". -/
theorem getCell_writeFold_posted_stable (now : Int) (outs : Outcomes) (name : String)
    (data : List (List Cell)) (j : Nat) :
    ∀ (is : List Nat) (d0 : List (List Cell)),
      getCell d0 j 0 = Cell.str "Posted" →
        getCell (writeFold now outs name data d0 is) j 0 = Cell.str "Posted" := by
  intro is
  induction is with
  | nil => intro d0 h; exact h
  | cons i is ih =>
    intro d0 h
    rw [writeFold_cons]
    by_cases hw : shouldPost now data i && (outs name i).wrote
    · rw [if_pos hw]
      apply ih
      by_cases hij : i = j
      · subst hij
        rcases getCell_updateCell_self_or d0 i 0 (Cell.str "Posted") with h' | h'
        · exact h'
        · rw [h', h]
      · rw [getCell_updateCell_ne_row _ _ _ _ _ _ hij, h]
    · rw [if_neg hw]
      exact ih d0 h

/-- A row whose index qualifies and whose try block succeeds ends the loop
with "Posted" in its status cell. -/
theorem getCell_writeFold_written (now : Int) (outs : Outcomes) (name : String)
    (data : List (List Cell)) (j : Nat)
    (hq : shouldPost now data j = true) (hw : (outs name j).wrote = true) :
    ∀ (is : List Nat) (d0 : List (List Cell)), j ∈ is →
      j < d0.length → 0 < (d0.getD j []).length →
      getCell (writeFold now outs name data d0 is) j 0 = Cell.str "Posted" := by
  intro is
  induction is with
  | nil => intro d0 hmem; cases hmem
  | cons i is ih =>
    intro d0 hmem hj hr
    rw [writeFold_cons]
    by_cases hij : i = j
    · subst hij
      rw [if_pos (by simp [hq, hw])]
      apply getCell_writeFold_posted_stable
      exact getCell_updateCell_eq d0 i 0 _ hj hr
    · have hmem' : j ∈ is := by
        rcases List.mem_cons.1 hmem with h | h
        · exact absurd h.symm hij
        · exact h
      by_cases hw' : shouldPost now data i && (outs name i).wrote
      · rw [if_pos hw']
        exact ih _ hmem' (by rw [length_updateCell]; exact hj)
          (by rw [rowlen_updateCell]; exact hr)
      · rw [if_neg hw']
        exact ih d0 hmem' hj hr

/-! ## The all-successful special case -/

theorem rowPosts_allOk (now : Int) (did : String) (createdAt : Int)
    (outs : Outcomes) (name : String) (data : List (List Cell)) (is : List Nat)
    (h : allOk outs) :
    rowPosts now did createdAt outs name data is
      = (is.filter (shouldPost now data)).map
          (fun i => mkRecord did (getCell data i 8) createdAt) := by
  unfold rowPosts
  congr 1
  apply List.filter_congr
  intro i _
  rw [h name i]
  simp [RowOutcome.posted]

theorem rowLog_allOk (now : Int) (outs : Outcomes) (name : String)
    (data : List (List Cell)) (is : List Nat) (h : allOk outs) :
    rowLog now outs name data is
      = (is.filter (shouldPost now data)).map
          (fun i => "Posting row " ++ toString (i + 1)) := by
  unfold rowLog
  induction is with
  | nil => rfl
  | cons i is ih =>
    rw [List.flatMap_cons, ih, List.filter_cons]
    by_cases hs : shouldPost now data i
    · simp [hs, h name i]
    · simp [hs]

theorem jsEqReady_eq_decide (c : Cell) :
    jsEqReady c = decide (c = Cell.str "Ready") := by
  cases c <;> simp [jsEqReady]

theorem shouldPost_false_of_status_posted (now : Int) (d : List (List Cell))
    (i : Nat) (h : getCell d i 0 = Cell.str "Posted") :
    shouldPost now d i = false := by
  simp [shouldPost, h, jsEqReady]

theorem runOk_ss_mem (sess : Session) (now createdAt : Int) (outs : Outcomes)
    (ss : Spreadsheet) (name : String) (hname : name ∈ SHEET_NAMES) :
    (runOk sess now createdAt outs ss).ss name
      = sheetAfter now outs name (ss name) := by
  have h : name = "Peak Share" ∨ name = "Peak Generation" := by
    simpa [SHEET_NAMES] using hname
  rcases h with h | h <;> subst h <;> rw [runOk_ss] <;> simp

theorem errMsg_mem_rowLog (now : Int) (outs : Outcomes) (name : String)
    (data : List (List Cell)) (is : List Nat) (i : Nat) (e : String)
    (hmem : i ∈ is) (hq : shouldPost now data i = true)
    (hout : outs name i = RowOutcome.fetchThrows e ∨
      outs name i = RowOutcome.setValueThrows e) :
    ("Error posting row " ++ toString (i + 1) ++ ": " ++ e)
      ∈ rowLog now outs name data is := by
  unfold rowLog
  rw [List.mem_flatMap]
  refine ⟨i, hmem, ?_⟩
  rcases hout with h | h <;> simp [hq, h]

theorem errMsg_mem_runOk_log (sess : Session) (now createdAt : Int)
    (outs : Outcomes) (ss : Spreadsheet) (name : String) (i : Nat) (e : String)
    (hname : name ∈ SHEET_NAMES)
    (hmem : i ∈ rowIdxs (ss name)) (hq : shouldPost now (ss name) i = true)
    (hout : outs name i = RowOutcome.fetchThrows e ∨
      outs name i = RowOutcome.setValueThrows e) :
    ("Error posting row " ++ toString (i + 1) ++ ": " ++ e)
      ∈ (runOk sess now createdAt outs ss).log := by
  rw [runOk_log]
  have h : name = "Peak Share" ∨ name = "Peak Generation" := by
    simpa [SHEET_NAMES] using hname
  rcases h with h | h <;> subst h
  · exact List.mem_append_left _
      (List.mem_cons_of_mem _ (errMsg_mem_rowLog _ _ _ _ _ _ _ hmem hq hout))
  · exact List.mem_append_right _
      (List.mem_cons_of_mem _ (errMsg_mem_rowLog _ _ _ _ _ _ _ hmem hq hout))

theorem mkRecord_mem_rowPosts (now : Int) (did : String) (createdAt : Int)
    (outs : Outcomes) (name : String) (data : List (List Cell)) (is : List Nat)
    (i : Nat) (hmem : i ∈ is) (hq : shouldPost now data i = true)
    (hp : (outs name i).posted = true) :
    mkRecord did (getCell data i 8) createdAt
      ∈ rowPosts now did createdAt outs name data is := by
  unfold rowPosts
  exact List.mem_map_of_mem _ (List.mem_filter.2 ⟨hmem, by simp [hq, hp]⟩)

theorem rowPosts_eq_nil (now : Int) (did : String) (createdAt : Int)
    (outs : Outcomes) (name : String) (data : List (List Cell)) (is : List Nat)
    (h : ∀ i ∈ is, shouldPost now data i = false) :
    rowPosts now did createdAt outs name data is = [] := by
  unfold rowPosts
  have : is.filter (fun i => shouldPost now data i && (outs name i).posted) = [] := by
    rw [List.filter_eq_nil_iff]
    intro i hi
    simp [h i hi]
  rw [this]
  rfl

/-- With every outcome successful, a run's posts are exactly what the spec
predicts. -/
theorem runOk_posts_allOk (sess : Session) (now createdAt : Int) (outs : Outcomes)
    (ss : Spreadsheet) (h : allOk outs) :
    (runOk sess now createdAt outs ss).posts
      = specRunPosts now sess.did createdAt ss := by
  rw [runOk_posts, specRunPosts]
  rw [rowPosts_allOk _ _ _ _ _ _ _ h, rowPosts_allOk _ _ _ _ _ _ _ h]
  simp [SHEET_NAMES]

/-- With every outcome successful, a run's log is exactly what the spec
predicts. -/
theorem runOk_log_allOk (sess : Session) (now createdAt : Int) (outs : Outcomes)
    (ss : Spreadsheet) (h : allOk outs) :
    (runOk sess now createdAt outs ss).log = specRunLog now ss := by
  rw [runOk_log, specRunLog]
  rw [rowLog_allOk _ _ _ _ _ h, rowLog_allOk _ _ _ _ _ h]
  simp [SHEET_NAMES]

/-- After an all-successful run, a qualifying row's status cell reads
"Posted". -/
theorem statusPosted_after_allOk (sess : Session) (now createdAt : Int)
    (outs : Outcomes) (ss : Spreadsheet) (name : String) (i : Nat)
    (hname : name ∈ SHEET_NAMES) (h : allOk outs)
    (hmem : i ∈ rowIdxs (ss name)) (hq : shouldPost now (ss name) i = true) :
    getCell ((runOk sess now createdAt outs ss).ss name) i 0
      = Cell.str "Posted" := by
  rw [runOk_ss_mem _ _ _ _ _ _ hname]
  unfold sheetAfter
  have hready : jsEqReady (getCell (ss name) i 0) = true :=
    ((shouldPost_iff now (ss name) i).1 hq).2.1
  exact getCell_writeFold_written now outs name (ss name) i hq
    (by rw [h name i]; rfl) (rowIdxs (ss name)) (ss name) hmem
    ((mem_rowIdxs (ss name) i).1 hmem).2 (rowlen_pos_of_ready _ _ hready)

/-- A row the loop did not write keeps all three cells the predicate reads,
so its qualification is unchanged. -/
theorem shouldPost_after_not_written (now : Int) (outs : Outcomes) (name : String)
    (d : List (List Cell)) (i : Nat)
    (h : ¬(shouldPost now d i = true ∧ (outs name i).wrote = true)) :
    shouldPost now (sheetAfter now outs name d) i = shouldPost now d i := by
  unfold sheetAfter
  exact shouldPost_congr now d _ i
    (getCell_writeFold_not_written now outs name d i 0 h _ _)
    (getCell_writeFold_not_written now outs name d i 1 h _ _)
    (getCell_writeFold_not_written now outs name d i 8 h _ _)

/-- After an all-successful run, no data row of any configured tab
qualifies any more (same day, no intervening edits). -/
theorem noQualify_after_allOk (sess : Session) (now createdAt : Int)
    (outs : Outcomes) (ss : Spreadsheet) (name : String) (i : Nat)
    (hname : name ∈ SHEET_NAMES) (h : allOk outs)
    (hmem : i ∈ rowIdxs ((runOk sess now createdAt outs ss).ss name)) :
    shouldPost now ((runOk sess now createdAt outs ss).ss name) i = false := by
  rw [runOk_ss_mem _ _ _ _ _ _ hname] at hmem ⊢
  have hmem' : i ∈ rowIdxs (ss name) := by
    rw [mem_rowIdxs] at hmem ⊢
    unfold sheetAfter at hmem
    rwa [length_writeFold] at hmem
  by_cases hq : shouldPost now (ss name) i = true
  · apply shouldPost_false_of_status_posted
    have hready : jsEqReady (getCell (ss name) i 0) = true :=
      ((shouldPost_iff now (ss name) i).1 hq).2.1
    unfold sheetAfter
    exact getCell_writeFold_written now outs name (ss name) i hq
      (by rw [h name i]; rfl) (rowIdxs (ss name)) (ss name) hmem'
      ((mem_rowIdxs (ss name) i).1 hmem').2 (rowlen_pos_of_ready _ _ hready)
  · rw [shouldPost_after_not_written now outs name (ss name) i
      (fun hc => hq hc.1)]
    exact Bool.eq_false_iff.2 hq

/-! ## Concrete inputs used by counterexamples and witnesses -/

/-- A nine-column row shaped like the sheet's: status in column A, date in
column B, content in column I. -/
def exRow (status date content : Cell) : List Cell :=
  [status, date, Cell.str "", Cell.str "", Cell.str "", Cell.str "",
    Cell.str "", Cell.str "", content]

/-- A header row for the concrete grids. -/
def exHeader : List Cell :=
  exRow (Cell.str "Status") (Cell.str "Date") (Cell.str "Post Content")

/-- Run instant: 2024-01-02, 14:00 UTC, in ms. -/
def nowJan2 : Int := 1704204000000

/-- A grid whose data row has status "Ready", date 2024-01-01 and the
number 0 in the content column. -/
def c1Data : List (List Cell) :=
  [exHeader, exRow (Cell.str "Ready") (Cell.str "2024-01-01") (Cell.num 0)]

/-- A grid whose data row's content cell is the number 0 but whose date is
the run's own day, 2024-01-02. -/
def c3Data : List (List Cell) :=
  [exHeader, exRow (Cell.str "Ready") (Cell.str "2024-01-02") (Cell.num 0)]

/-- A grid whose data row's content cell is a single blank. -/
def c2Data : List (List Cell) :=
  [exHeader, exRow (Cell.str "Ready") (Cell.str "2024-01-01") (Cell.str " ")]

/-! ## C1 -/

/-- C1: the claim reads `shouldPost` as "content cell non-empty, status
exactly Ready, date due".  It fails: a row whose content cell holds the
number 0 meets all three conditions (the spec-worded `specQualifies` is
true) yet `shouldPost` is false, because the code tests truthiness, not
non-emptiness. -/
theorem c1_counterexample :
    cellNonEmpty (getCell c1Data 1 8) = true ∧
    getCell c1Data 1 0 = Cell.str "Ready" ∧
    jsDateLe ((jsNewDate (getCell c1Data 1 1)).map normMidnight)
      (normMidnight nowJan2) = true ∧
    specQualifies nowJan2 c1Data 1 = true ∧
    shouldPost nowJan2 c1Data 1 = false := by
  decide

/-- C1 (amended): for every row whose content cell is a string value,
`shouldPost` returns true if and only if the content cell is non-empty,
the status cell equals exactly "Ready", and the scheduled date normalized
to midnight is at most the run's current date normalized to midnight
(`specQualifies`). -/
theorem shouldPost_matches_spec_on_text_rows (now : Int) (d : List (List Cell))
    (i : Nat) (s : String) (h : getCell d i 8 = Cell.str s) :
    shouldPost now d i = specQualifies now d i := by
  simp [shouldPost, specQualifies, h, jsEqReady_eq_decide, jsTruthy, cellNonEmpty]

/-- A grid with a text content cell, for the C1 witness. -/
def c1WData : List (List Cell) :=
  [exHeader, exRow (Cell.str "Ready") (Cell.str "2024-01-01") (Cell.str "Hello")]

/-- C1 witness: the amended equivalence at a concrete text row. -/
theorem shouldPost_matches_spec_on_text_rows_witness :
    shouldPost nowJan2 c1WData 1 = specQualifies nowJan2 c1WData 1 :=
  shouldPost_matches_spec_on_text_rows nowJan2 c1WData 1 "Hello" (by decide)

/-! ## C2 -/

/-- C2: the claim says blank (whitespace-only) content is skipped.  It
fails: a content cell holding `" "` is blank yet truthy in JavaScript, so
the row posts. -/
theorem c2_counterexample :
    isBlankCell (getCell c2Data 1 8) = true ∧
    shouldPost nowJan2 c2Data 1 = true := by
  decide

/-- C2 (amended): for every row whose content cell is the empty string,
`shouldPost` returns false regardless of the row's status and
scheduled-date values. -/
theorem shouldPost_false_of_empty_content (now : Int) (d : List (List Cell))
    (i : Nat) (h : getCell d i 8 = Cell.str "") :
    shouldPost now d i = false := by
  simp [shouldPost, h, jsTruthy]

/-- A grid with an empty content cell, for the C2 witness. -/
def c2WData : List (List Cell) :=
  [exHeader, exRow (Cell.str "Ready") (Cell.str "2024-01-01") (Cell.str "")]

/-- C2 witness: the amended statement at a concrete row. -/
theorem shouldPost_false_of_empty_content_witness :
    shouldPost nowJan2 c2WData 1 = false :=
  shouldPost_false_of_empty_content nowJan2 c2WData 1 (by decide)

/-! ## C3 -/

/-- C3: the claim quantifies over rows with status "Ready" and non-empty
content and asserts `shouldPost` is true when the date equals today.  It
fails for the same reason as C1: the number 0 is non-empty but falsy, so
such a row is skipped even on its due day. -/
theorem c3_counterexample :
    getCell c3Data 1 0 = Cell.str "Ready" ∧
    cellNonEmpty (getCell c3Data 1 8) = true ∧
    (jsNewDate (getCell c3Data 1 1)).map normMidnight
      = some (normMidnight nowJan2) ∧
    shouldPost nowJan2 c3Data 1 = false := by
  decide

/-- C3 (amended): for every row with status exactly "Ready" and non-empty
string content whose date cell parses to `t`: `shouldPost` is true when
`t` normalized equals today, true when it is strictly before today, and
false when it is exactly one day after today. -/
theorem shouldPost_date_boundaries (now t : Int) (d : List (List Cell))
    (i : Nat) (s : String) (hc : getCell d i 8 = Cell.str s) (hs : s ≠ "")
    (hst : getCell d i 0 = Cell.str "Ready")
    (ht : jsNewDate (getCell d i 1) = some t) :
    (normMidnight t = normMidnight now → shouldPost now d i = true) ∧
    (normMidnight t < normMidnight now → shouldPost now d i = true) ∧
    (normMidnight t = normMidnight now + 86400000 →
      shouldPost now d i = false) := by
  have hsp : shouldPost now d i
      = decide (normMidnight t ≤ normMidnight now) := by
    simp [shouldPost, hc, hst, ht, jsTruthy, jsEqReady, jsDateLe, hs]
  refine ⟨?_, ?_, ?_⟩ <;> intro h <;> rw [hsp] <;> simp <;> omega

/-- A grid with text content and a past date, for the C3 witness. -/
def c3WData : List (List Cell) :=
  [exHeader, exRow (Cell.str "Ready") (Cell.str "2024-01-01") (Cell.str "Hi")]

/-- C3 witness: the amended statement at a concrete row (its date is in
the past, so the second case fires). -/
theorem shouldPost_date_boundaries_witness :
    (normMidnight 1704067200000 = normMidnight nowJan2 →
      shouldPost nowJan2 c3WData 1 = true) ∧
    (normMidnight 1704067200000 < normMidnight nowJan2 →
      shouldPost nowJan2 c3WData 1 = true) ∧
    (normMidnight 1704067200000 = normMidnight nowJan2 + 86400000 →
      shouldPost nowJan2 c3WData 1 = false) :=
  shouldPost_date_boundaries nowJan2 1704067200000 c3WData 1 "Hi"
    (by decide) (by decide) (by decide) (by decide)

/-! ## C10 -/

/-- C10: a falsy non-string content cell (the number 0 or the boolean
false) makes `shouldPost` false although the cell is non-empty: the
content check is a truthiness test, not an emptiness test. -/
theorem shouldPost_false_on_falsy_content (now : Int) (d : List (List Cell))
    (i : Nat)
    (h : getCell d i 8 = Cell.num 0 ∨ getCell d i 8 = Cell.boolean false) :
    shouldPost now d i = false ∧ cellNonEmpty (getCell d i 8) = true := by
  rcases h with h | h <;> simp [shouldPost, h, jsTruthy, cellNonEmpty]

/-- A grid whose content cell is the boolean false, for the C10 witness. -/
def c10Data : List (List Cell) :=
  [exHeader, exRow (Cell.str "Ready") (Cell.str "2024-01-01") (Cell.boolean false)]

/-- C10 witness: at a concrete row holding `false` in the content cell. -/
theorem shouldPost_false_on_falsy_content_witness :
    shouldPost nowJan2 c10Data 1 = false ∧
    cellNonEmpty (getCell c10Data 1 8) = true :=
  shouldPost_false_on_falsy_content nowJan2 c10Data 1 (Or.inr (by decide))

/-! ## C7 -/

/-- C7: if authentication fails (the `createSession` fetch throws or its
response does not parse), the whole run aborts with that error: no sheet
is read, no post submitted, no cell written — the run produces no state at
all. -/
theorem run_aborts_on_auth_failure (e : String) (now createdAt : Int)
    (outs : Outcomes) (ss : Spreadsheet) :
    postToBluesky (Except.error e) now createdAt outs ss = Except.error e := rfl

/-! ## C6 -/

/-- The C6 scenario's spreadsheet: tab "Peak Share" with one data row
`["Ready", "2024-01-01", …, "Hello world"]`, content in the 9th column. -/
def c6SS : Spreadsheet := fun n =>
  if n = "Peak Share" then
    [exHeader, exRow (Cell.str "Ready") (Cell.str "2024-01-01") (Cell.str "Hello world")]
  else []

/-- An oracle on which every try block succeeds. -/
def okOutcomes : Outcomes := fun _ _ => RowOutcome.ok

/-- The C6 scenario's session. -/
def c6Sess : Session := ⟨"jwt-token", "did:plc:example"⟩

/-- C6: with today = 2024-01-02, the run over the C6 spreadsheet submits
exactly one post record, whose text is "Hello world", and writes "Posted"
into cell A2 of "Peak Share" (the rest of the grid unchanged). -/
theorem peak_share_scenario :
    (postToBluesky (Except.ok c6Sess) nowJan2 1704204005000 okOutcomes c6SS).map
        (fun r => (r.posts, r.ss "Peak Share"))
      = Except.ok
          ([mkRecord "did:plc:example" (Cell.str "Hello world") 1704204005000],
            [exHeader,
              exRow (Cell.str "Posted") (Cell.str "2024-01-01")
                (Cell.str "Hello world")]) := by
  rfl

/-- A qualifying row whose fetch succeeds contributes its record to the
run's posts. -/
theorem record_mem_runOk_posts (sess : Session) (now createdAt : Int)
    (outs : Outcomes) (ss : Spreadsheet) (name : String) (i : Nat)
    (hname : name ∈ SHEET_NAMES) (hmem : i ∈ rowIdxs (ss name))
    (hq : shouldPost now (ss name) i = true)
    (hp : (outs name i).posted = true) :
    mkRecord sess.did (getCell (ss name) i 8) createdAt
      ∈ (runOk sess now createdAt outs ss).posts := by
  rw [runOk_posts]
  have h : name = "Peak Share" ∨ name = "Peak Generation" := by
    simpa [SHEET_NAMES] using hname
  rcases h with h | h <;> subst h
  · exact List.mem_append_left _
      (mkRecord_mem_rowPosts _ _ _ _ _ _ _ _ hmem hq hp)
  · exact List.mem_append_right _
      (mkRecord_mem_rowPosts _ _ _ _ _ _ _ _ hmem hq hp)

/-! ## C4 -/

/-- C4: when the post-creation fetch for a qualifying row throws, the error
is caught and logged with the row's 1-based position and the error text,
that row's status cell is left unchanged, and the run still processes the
other rows (every other qualifying row with a successful try block ends
with "Posted"). -/
theorem post_failure_isolated (sess : Session) (now createdAt : Int)
    (outs : Outcomes) (ss : Spreadsheet) (name : String) (i : Nat) (e : String)
    (hname : name ∈ SHEET_NAMES) (hmem : i ∈ rowIdxs (ss name))
    (hq : shouldPost now (ss name) i = true)
    (hout : outs name i = RowOutcome.fetchThrows e) :
    ("Error posting row " ++ toString (i + 1) ++ ": " ++ e)
        ∈ (runOk sess now createdAt outs ss).log ∧
    getCell ((runOk sess now createdAt outs ss).ss name) i 0
        = getCell (ss name) i 0 ∧
    (∀ j, j ∈ rowIdxs (ss name) → shouldPost now (ss name) j = true →
      outs name j = RowOutcome.ok →
      getCell ((runOk sess now createdAt outs ss).ss name) j 0
        = Cell.str "Posted") := by
  refine ⟨errMsg_mem_runOk_log _ _ _ _ _ _ _ _ hname hmem hq (Or.inl hout),
    ?_, ?_⟩
  · rw [runOk_ss_mem _ _ _ _ _ _ hname]
    unfold sheetAfter
    apply getCell_writeFold_not_written
    rintro ⟨-, hw⟩
    rw [hout] at hw
    simp [RowOutcome.wrote] at hw
  · intro j hjmem hjq hjok
    rw [runOk_ss_mem _ _ _ _ _ _ hname]
    unfold sheetAfter
    have hready : jsEqReady (getCell (ss name) j 0) = true :=
      ((shouldPost_iff now (ss name) j).1 hjq).2.1
    exact getCell_writeFold_written now outs name (ss name) j hjq
      (by rw [hjok]; rfl) _ _ hjmem ((mem_rowIdxs _ _).1 hjmem).2
      (rowlen_pos_of_ready _ _ hready)

/-- The C4 witness spreadsheet: two qualifying rows on "Peak Share". -/
def w4SS : Spreadsheet := fun n =>
  if n = "Peak Share" then
    [exHeader,
      exRow (Cell.str "Ready") (Cell.str "2024-01-01") (Cell.str "First"),
      exRow (Cell.str "Ready") (Cell.str "2024-01-02") (Cell.str "Second")]
  else []

/-- The C4 witness oracle: the fetch throws on row index 1 of "Peak Share"
and succeeds everywhere else. -/
def w4Outs : Outcomes := fun n i =>
  if n = "Peak Share" ∧ i = 1 then RowOutcome.fetchThrows "Exception: network error"
  else RowOutcome.ok

/-- The C4 witness session. -/
def w4Sess : Session := ⟨"jwt4", "did:plc:w4"⟩

/-- C4 witness: a concrete run in which row 2 of "Peak Share" fails and
row 3 still gets posted and marked. -/
theorem post_failure_isolated_witness :
    ("Error posting row " ++ toString (1 + 1) ++ ": " ++ "Exception: network error")
        ∈ (runOk w4Sess nowJan2 1704204005000 w4Outs w4SS).log ∧
    getCell ((runOk w4Sess nowJan2 1704204005000 w4Outs w4SS).ss "Peak Share") 1 0
        = getCell (w4SS "Peak Share") 1 0 ∧
    (∀ j, j ∈ rowIdxs (w4SS "Peak Share") →
      shouldPost nowJan2 (w4SS "Peak Share") j = true →
      w4Outs "Peak Share" j = RowOutcome.ok →
      getCell ((runOk w4Sess nowJan2 1704204005000 w4Outs w4SS).ss "Peak Share") j 0
        = Cell.str "Posted") :=
  post_failure_isolated w4Sess nowJan2 1704204005000 w4Outs w4SS "Peak Share" 1
    "Exception: network error" (by decide) (by decide) (by decide) (by decide)

/-! ## C9 -/

/-- C9: when the post-creation fetch succeeds but the "Posted" status write
throws, the error is caught and logged exactly like a posting failure, the
status cell keeps its prior value "Ready", the post record was submitted
remotely, and the row still qualifies — it would be posted again on the
next run. -/
theorem status_write_failure_keeps_row_eligible (sess : Session)
    (now createdAt : Int) (outs : Outcomes) (ss : Spreadsheet) (name : String)
    (i : Nat) (e : String)
    (hname : name ∈ SHEET_NAMES) (hmem : i ∈ rowIdxs (ss name))
    (hq : shouldPost now (ss name) i = true)
    (hout : outs name i = RowOutcome.setValueThrows e) :
    ("Error posting row " ++ toString (i + 1) ++ ": " ++ e)
        ∈ (runOk sess now createdAt outs ss).log ∧
    getCell ((runOk sess now createdAt outs ss).ss name) i 0
        = Cell.str "Ready" ∧
    mkRecord sess.did (getCell (ss name) i 8) createdAt
        ∈ (runOk sess now createdAt outs ss).posts ∧
    shouldPost now ((runOk sess now createdAt outs ss).ss name) i = true := by
  have hnw : ¬(shouldPost now (ss name) i = true ∧ (outs name i).wrote = true) := by
    rintro ⟨-, hw⟩
    rw [hout] at hw
    simp [RowOutcome.wrote] at hw
  refine ⟨errMsg_mem_runOk_log _ _ _ _ _ _ _ _ hname hmem hq (Or.inr hout),
    ?_, ?_, ?_⟩
  · rw [runOk_ss_mem _ _ _ _ _ _ hname]
    unfold sheetAfter
    rw [getCell_writeFold_not_written now outs name (ss name) i 0 hnw]
    exact (jsEqReady_eq_true _).1 ((shouldPost_iff now (ss name) i).1 hq).2.1
  · exact record_mem_runOk_posts _ _ _ _ _ _ _ hname hmem hq (by rw [hout]; rfl)
  · rw [runOk_ss_mem _ _ _ _ _ _ hname,
      shouldPost_after_not_written now outs name (ss name) i hnw]
    exact hq

/-- The C9 witness spreadsheet. -/
def w9SS : Spreadsheet := fun n =>
  if n = "Peak Generation" then
    [exHeader,
      exRow (Cell.str "Ready") (Cell.str "2024-01-01") (Cell.str "Gen stats")]
  else []

/-- The C9 witness oracle: the status write throws on row index 1 of
"Peak Generation". -/
def w9Outs : Outcomes := fun n i =>
  if n = "Peak Generation" ∧ i = 1 then
    RowOutcome.setValueThrows "Exception: write failed"
  else RowOutcome.ok

/-- The C9 witness session. -/
def w9Sess : Session := ⟨"jwt9", "did:plc:w9"⟩

/-- C9 witness: a concrete run in which the post goes out but the status
write fails and the row stays eligible. -/
theorem status_write_failure_keeps_row_eligible_witness :
    ("Error posting row " ++ toString (1 + 1) ++ ": " ++ "Exception: write failed")
        ∈ (runOk w9Sess nowJan2 1704204005000 w9Outs w9SS).log ∧
    getCell ((runOk w9Sess nowJan2 1704204005000 w9Outs w9SS).ss "Peak Generation") 1 0
        = Cell.str "Ready" ∧
    mkRecord w9Sess.did (getCell (w9SS "Peak Generation") 1 8) 1704204005000
        ∈ (runOk w9Sess nowJan2 1704204005000 w9Outs w9SS).posts ∧
    shouldPost nowJan2 ((runOk w9Sess nowJan2 1704204005000 w9Outs w9SS).ss "Peak Generation") 1
        = true :=
  status_write_failure_keeps_row_eligible w9Sess nowJan2 1704204005000 w9Outs w9SS
    "Peak Generation" 1 "Exception: write failed"
    (by decide) (by decide) (by decide) (by decide)

/-! ## C8 -/

/-- Whether a log line records an invocation of the posting step: the
script logs `"Posting row " + row_number` (line 38) right before the try
block, on exactly the rows where `shouldPost` returned true.  The test
looks at the line's first 11 characters, so it holds for every such line
whatever the row number, and fails for the search lines and for the caught
error lines (which start "Searching…" and "Error…"). -/
def isPostingLine (l : String) : Bool :=
  decide (l.data.take 11 = "Posting row".data)

theorem isPostingLine_posting (i : Nat) :
    isPostingLine ("Posting row " ++ toString (i + 1)) = true := by
  unfold isPostingLine
  rw [String.data_append,
    List.take_append_of_le_length
      (by decide : (11 : Nat) ≤ "Posting row ".data.length)]
  decide

theorem isPostingLine_error (i : Nat) (e : String) :
    isPostingLine ("Error posting row " ++ toString (i + 1) ++ ": " ++ e)
      = false := by
  unfold isPostingLine
  rw [String.data_append, String.data_append, String.data_append,
    List.append_assoc, List.append_assoc,
    List.take_append_of_le_length
      (by decide : (11 : Nat) ≤ "Error posting row ".data.length)]
  decide

theorem isPostingLine_searching (name : String) :
    isPostingLine ("Searching for posts in " ++ name) = false := by
  unfold isPostingLine
  rw [String.data_append,
    List.take_append_of_le_length
      (by decide : (11 : Nat) ≤ "Searching for posts in ".data.length)]
  decide

/-- The posting-step invocations the spec predicts for a run, whatever the
per-row outcomes: one "Posting row" line per qualifying data row, tabs in
their fixed list order, rows top to bottom with the header skipped. -/
def specPostingLog (now : Int) (ss : Spreadsheet) : List String :=
  SHEET_NAMES.flatMap fun name =>
    ((rowIdxs (ss name)).filter (shouldPost now (ss name))).map
      (fun i => "Posting row " ++ toString (i + 1))

theorem rowLog_cons (now : Int) (outs : Outcomes) (name : String)
    (data : List (List Cell)) (i : Nat) (is : List Nat) :
    rowLog now outs name data (i :: is)
      = (if shouldPost now data i then
          ("Posting row " ++ toString (i + 1)) ::
            (match outs name i with
             | .ok => []
             | .fetchThrows e =>
               ["Error posting row " ++ toString (i + 1) ++ ": " ++ e]
             | .setValueThrows e =>
               ["Error posting row " ++ toString (i + 1) ++ ": " ++ e])
        else []) ++ rowLog now outs name data is := by
  unfold rowLog
  rw [List.flatMap_cons]

/-- Among the lines a tab's row loop logs, the posting lines are exactly
one per qualifying index, in index order — also when try blocks throw. -/
theorem filter_isPostingLine_rowLog (now : Int) (outs : Outcomes)
    (name : String) (data : List (List Cell)) (is : List Nat) :
    (rowLog now outs name data is).filter isPostingLine
      = (is.filter (shouldPost now data)).map
          (fun i => "Posting row " ++ toString (i + 1)) := by
  induction is with
  | nil => rfl
  | cons i is ih =>
    rw [rowLog_cons, List.filter_append, ih, List.filter_cons]
    by_cases hs : shouldPost now data i
    · rw [if_pos hs]
      cases houts : outs name i with
      | ok => simp [List.filter_cons, isPostingLine_posting i, hs]
      | fetchThrows e =>
        simp [List.filter_cons, isPostingLine_posting i,
          isPostingLine_error i e, hs]
      | setValueThrows e =>
        simp [List.filter_cons, isPostingLine_posting i,
          isPostingLine_error i e, hs]
    · rw [if_neg hs]
      simp [hs]

/-- C8: in every run — whatever each row's try block does — the log is,
tab by tab in the fixed list order, the tab's single search line followed
by that tab's row lines, produced by iterating the once-read snapshot's
data rows top to bottom with only the header skipped (`rowLog` over
`rowIdxs`); and the posting step is invoked exactly on the rows where
`shouldPost` is true: the run's "Posting row" lines are one per qualifying
row, tabs in list order, rows top to bottom. -/
theorem run_control_flow (sess : Session) (now createdAt : Int)
    (outs : Outcomes) (ss : Spreadsheet) :
    (runOk sess now createdAt outs ss).log
      = SHEET_NAMES.flatMap (fun name =>
          ("Searching for posts in " ++ name) ::
            rowLog now outs name (ss name) (rowIdxs (ss name))) ∧
    (runOk sess now createdAt outs ss).log.filter isPostingLine
      = specPostingLog now ss := by
  constructor
  · rw [runOk_log]
    simp [SHEET_NAMES]
  · rw [runOk_log, List.filter_append, List.filter_cons, List.filter_cons,
      filter_isPostingLine_rowLog, filter_isPostingLine_rowLog]
    have h1 : isPostingLine "Searching for posts in Peak Share" = false := by
      decide
    have h2 : isPostingLine "Searching for posts in Peak Generation" = false := by
      decide
    simp [h1, h2, specPostingLog, SHEET_NAMES]

/-! ## C5 -/

/-- C5: a first run whose try blocks all succeed marks every qualifying row
"Posted" and submits exactly the spec-predicted list of records, one per
originally-qualifying row; in a second run on the resulting spreadsheet
(same day, no intervening edits) no row qualifies, so the second run posts
nothing — each originally-qualifying row is posted exactly once across the
two runs. -/
theorem run_twice_posts_each_row_once (sess sess2 : Session)
    (now createdAt createdAt2 : Int) (outs outs2 : Outcomes) (ss : Spreadsheet)
    (h : allOk outs) :
    (∀ name, name ∈ SHEET_NAMES → ∀ i, i ∈ rowIdxs (ss name) →
      shouldPost now (ss name) i = true →
        getCell ((runOk sess now createdAt outs ss).ss name) i 0
            = Cell.str "Posted" ∧
        shouldPost now ((runOk sess now createdAt outs ss).ss name) i
            = false) ∧
    (runOk sess now createdAt outs ss).posts
        = specRunPosts now sess.did createdAt ss ∧
    (runOk sess2 now createdAt2 outs2
        ((runOk sess now createdAt outs ss).ss)).posts = [] := by
  refine ⟨?_, runOk_posts_allOk _ _ _ _ _ h, ?_⟩
  · intro name hname i hmem hq
    refine ⟨statusPosted_after_allOk _ _ _ _ _ _ _ hname h hmem hq, ?_⟩
    have hmem2 : i ∈ rowIdxs ((runOk sess now createdAt outs ss).ss name) := by
      rw [runOk_ss_mem _ _ _ _ _ _ hname, mem_rowIdxs]
      unfold sheetAfter
      rw [length_writeFold]
      exact (mem_rowIdxs _ _).1 hmem
    exact noQualify_after_allOk _ _ _ _ _ _ _ hname h hmem2
  · rw [runOk_posts]
    rw [rowPosts_eq_nil _ _ _ _ _ _ _
        (fun i hi => noQualify_after_allOk _ _ _ _ _ "Peak Share" i
          (by simp [SHEET_NAMES]) h hi),
      rowPosts_eq_nil _ _ _ _ _ _ _
        (fun i hi => noQualify_after_allOk _ _ _ _ _ "Peak Generation" i
          (by simp [SHEET_NAMES]) h hi)]
    rfl

/-- The C5 witness spreadsheet. -/
def w5SS : Spreadsheet := fun n =>
  if n = "Peak Share" then
    [exHeader,
      exRow (Cell.str "Ready") (Cell.str "2024-01-01") (Cell.str "Alpha"),
      exRow (Cell.str "Ready") (Cell.str "2024-01-06") (Cell.str "Beta")]
  else if n = "Peak Generation" then
    [exHeader,
      exRow (Cell.str "Ready") (Cell.str "2024-01-02") (Cell.str "Gamma")]
  else []

/-- The C5 witness sessions. -/
def w5Sess : Session := ⟨"jwt5", "did:plc:w5"⟩

/-- A second session for the C5 witness's second run. -/
def w5Sess2 : Session := ⟨"jwt5b", "did:plc:w5b"⟩

/-- C5 witness: two concrete back-to-back runs. -/
theorem run_twice_posts_each_row_once_witness :
    (∀ name, name ∈ SHEET_NAMES → ∀ i, i ∈ rowIdxs (w5SS name) →
      shouldPost nowJan2 (w5SS name) i = true →
        getCell ((runOk w5Sess nowJan2 1704204005000 okOutcomes w5SS).ss name) i 0
            = Cell.str "Posted" ∧
        shouldPost nowJan2 ((runOk w5Sess nowJan2 1704204005000 okOutcomes w5SS).ss name) i
            = false) ∧
    (runOk w5Sess nowJan2 1704204005000 okOutcomes w5SS).posts
        = specRunPosts nowJan2 w5Sess.did 1704204005000 w5SS ∧
    (runOk w5Sess2 nowJan2 1704207005000 okOutcomes
        ((runOk w5Sess nowJan2 1704204005000 okOutcomes w5SS).ss)).posts = [] :=
  run_twice_posts_each_row_once w5Sess w5Sess2 nowJan2 1704204005000 1704207005000
    okOutcomes okOutcomes w5SS (fun _ _ => rfl)

end SocialPost
